import Mathlib

/-!
Shallow embedding of `cocaine/futures/__init__.py` (class `Future`).

The `Future` class is a callback cell: producers call `trigger`/`error`/`close`,
a consumer calls `bind`/`unbind`.  Values and errors produced while no handler
is attached are buffered in `_chunks`/`_errors` and drained FIFO at `bind` time.

Modelling decisions, each tied to a line of the source:
* Handlers are opaque in Python (arbitrary callables).  We model a handler by an
  identifier: a value callback is a `Nat`; an errorback is a `Handler`, which is
  either a user handler `Handler.user id` or the implicit
  `Future._default_errorback` (line 106), modelled as `Handler.defaultEB`.
* Invoking a handler is observable only through the calls it receives, so each
  operation returns, besides the post-state, the list of handler invocations it
  performed, in order (`Call.onValue h v` / `Call.onError h e`).
* The source guards `bind`/`trigger`/`error` with `assert` (lines 38, 87, 100);
  the spec names this failure `InvalidStateError`.  We model a failed assertion
  as the operation returning `some Failure.invalidState` and leaving the state
  untouched.  `bind(None, eb)` with a non-empty chunk buffer would raise a
  `TypeError` mid-drain in Python (line 43 calls `None(...)` after popping one
  chunk); this is `Failure.typeError`, with the first chunk popped and lost,
  exactly as the interpreter would leave the object.
* The `callback` parameter of `bind` may be `None` in Python (the scenario
  `c.bind(None, eb)` in the spec uses this), hence it is an `Option Nat` here;
  `errorback=None` is replaced by the default errorback (lines 39-40).
* Error payloads are `FErr E`: either the `ChokeEvent` sentinel appended or
  delivered by `close` (lines 73, 75) or a domain error `FErr.custom e`.
-/

namespace CocaineFutures

/-- Lifecycle states of a future: `UNITIALIZED, BOUND, CLOSED = range(3)`
(source line 15; the spec calls the first state `UNBOUND`). -/
inductive FState : Type where
  | unitialized : FState
  | bound : FState
  | closed : FState
deriving DecidableEq

/-- An error handler: a user-supplied errorback, or the built-in
`_default_errorback` installed by `bind` when `errorback is None`. -/
inductive Handler : Type where
  | user : Nat → Handler
  | defaultEB : Handler
deriving DecidableEq

/-- An error payload: the `ChokeEvent` end-of-stream sentinel, or an opaque
domain error passed to `error()`. -/
inductive FErr (E : Type) : Type where
  | chokeEvent : FErr E
  | custom : E → FErr E
deriving DecidableEq

/-- One observable handler invocation: a value delivered to a callback, or an
error delivered to an errorback. -/
inductive Call (V E : Type) : Type where
  | onValue : Nat → V → Call V E
  | onError : Handler → FErr E → Call V E
deriving DecidableEq

/-- How an operation can fail: a violated `assert` (what the spec names
`InvalidStateError`), or the `TypeError` Python raises when `bind` was given
`None` as callback and tries to call it on a buffered chunk. -/
inductive Failure : Type where
  | invalidState : Failure
  | typeError : Failure
deriving DecidableEq

/-- The fields of a `Future` object (source lines 17-24): live callback
`_callback`, buffered values `_chunks`, live errorback `_errorback`, buffered
errors `_errors`, and the lifecycle `state`. -/
structure Future (V E : Type) : Type where
  callback : Option Nat
  chunks : List V
  errorback : Option Handler
  errors : List (FErr E)
  state : FState
deriving DecidableEq

/-- Result of running one operation: `err` is `none` when the call returned
normally, `post` is the state of the object afterwards, `calls` the handler
invocations the operation performed, in order. -/
structure OpResult (V E : Type) : Type where
  err : Option Failure
  post : Future V E
  calls : List (Call V E)
deriving DecidableEq

variable {V E : Type}

/-- `Future.__init__` (lines 17-24): no handlers, empty buffers, state
`UNITIALIZED`. -/
def Future.new : Future V E :=
  ⟨none, [], none, [], FState.unitialized⟩

/-- The errorback actually installed by `bind`: lines 39-40 replace a missing
errorback with `self._default_errorback`. -/
def ebOf : Option Nat → Handler
  | none => Handler.defaultEB
  | some i => Handler.user i

/-- Body of `bind` once the assert on line 38 has passed.  `retain` is true
when the starting state was `UNITIALIZED`, in which case lines 47-50 store the
handlers and move to `BOUND`.  Lines 42-45 drain `_chunks` through `callback`
then `_errors` through the errorback, FIFO.  When `callback` is `None` and a
chunk is buffered, line 43 pops the first chunk and then raises `TypeError`
trying to call `None`. -/
def Future.bindOpen (f : Future V E) (callback errorback : Option Nat)
    (retain : Bool) : OpResult V E :=
  match callback with
  | some cb =>
      match retain with
      | true =>
          ⟨none,
            { f with chunks := [], errors := [], callback := some cb,
                     errorback := some (ebOf errorback), state := FState.bound },
            f.chunks.map (Call.onValue cb)
              ++ f.errors.map (Call.onError (ebOf errorback))⟩
      | false =>
          ⟨none, { f with chunks := [], errors := [] },
            f.chunks.map (Call.onValue cb)
              ++ f.errors.map (Call.onError (ebOf errorback))⟩
  | none =>
      match f.chunks with
      | [] =>
          match retain with
          | true =>
              ⟨none,
                { f with errors := [], callback := none,
                         errorback := some (ebOf errorback), state := FState.bound },
                f.errors.map (Call.onError (ebOf errorback))⟩
          | false =>
              ⟨none, { f with errors := [] },
                f.errors.map (Call.onError (ebOf errorback))⟩
      | _ :: rest =>
          ⟨some Failure.typeError, { f with chunks := rest }, []⟩

/-- `Future.bind(callback, errorback=None)` (lines 26-50).  The assert on
line 38 admits `UNITIALIZED` and `CLOSED` and rejects `BOUND`. -/
def Future.bind (f : Future V E) (callback errorback : Option Nat) : OpResult V E :=
  match f.state with
  | FState.bound => ⟨some Failure.invalidState, f, []⟩
  | FState.unitialized => f.bindOpen callback errorback true
  | FState.closed => f.bindOpen callback errorback false

/-- `Future.unbind` (lines 52-60): drop both handlers, state `UNITIALIZED`;
the buffers are untouched.  Never fails and calls no handler. -/
def Future.unbind (f : Future V E) : Future V E :=
  { f with callback := none, errorback := none, state := FState.unitialized }

/-- `Future.close(silent=False)` (lines 62-78): no-op when already `CLOSED`;
otherwise, unless silent, route a `ChokeEvent` through the errorback if one is
live, else append it to `_errors`; then clear both handlers and set `CLOSED`. -/
def Future.close (f : Future V E) (silent : Bool) : OpResult V E :=
  match f.state with
  | FState.closed => ⟨none, f, []⟩
  | _ =>
      match silent with
      | true =>
          ⟨none, { f with callback := none, errorback := none,
                          state := FState.closed }, []⟩
      | false =>
          match f.errorback with
          | none =>
              ⟨none, { f with errors := f.errors ++ [FErr.chokeEvent],
                              callback := none, errorback := none,
                              state := FState.closed }, []⟩
          | some eb =>
              ⟨none, { f with callback := none, errorback := none,
                              state := FState.closed },
                [Call.onError eb FErr.chokeEvent]⟩

/-- `Future.trigger(chunk)` (lines 80-91): assert state is not `CLOSED`; then
deliver to the live callback if present, else buffer. -/
def Future.trigger (f : Future V E) (chunk : V) : OpResult V E :=
  match f.state with
  | FState.closed => ⟨some Failure.invalidState, f, []⟩
  | _ =>
      match f.callback with
      | none => ⟨none, { f with chunks := f.chunks ++ [chunk] }, []⟩
      | some cb => ⟨none, f, [Call.onValue cb chunk]⟩

/-- `Future.error(err)` (lines 93-104): assert state is not `CLOSED`; then
deliver to the live errorback if present, else buffer. -/
def Future.error (f : Future V E) (e : FErr E) : OpResult V E :=
  match f.state with
  | FState.closed => ⟨some Failure.invalidState, f, []⟩
  | _ =>
      match f.errorback with
      | none => ⟨none, { f with errors := f.errors ++ [e] }, []⟩
      | some eb => ⟨none, f, [Call.onError eb e]⟩

/-- One call against a future, for reachability arguments: which method was
invoked and with which arguments. -/
inductive Op (V E : Type) : Type where
  | bind : Option Nat → Option Nat → Op V E
  | unbind : Op V E
  | close : Bool → Op V E
  | trigger : V → Op V E
  | error : FErr E → Op V E
deriving DecidableEq

/-- The state of the object after one method call (even a call that raised
leaves the object behind in Python, so `step` keeps the post-state of failed
calls too). -/
def Future.step (f : Future V E) : Op V E → Future V E
  | Op.bind cb eb => (f.bind cb eb).post
  | Op.unbind => f.unbind
  | Op.close s => (f.close s).post
  | Op.trigger v => (f.trigger v).post
  | Op.error e => (f.error e).post

/-- The state of the object after a sequence of method calls. -/
def Future.run (f : Future V E) : List (Op V E) → Future V E
  | [] => f
  | op :: ops => (f.step op).run ops

/-- Producer-side calls: `trigger` and `error`. -/
def Op.isProduce : Op V E → Bool
  | Op.trigger _ => true
  | Op.error _ => true
  | _ => false

/-- The values carried by the `trigger` calls of a call sequence, in order. -/
def opValues : List (Op V E) → List V
  | [] => []
  | Op.trigger v :: ops => v :: opValues ops
  | _ :: ops => opValues ops

/-- The errors carried by the `error` calls of a call sequence, in order. -/
def opErrors : List (Op V E) → List (FErr E)
  | [] => []
  | Op.error e :: ops => e :: opErrors ops
  | _ :: ops => opErrors ops

/-- Iterate `close` with a fixed `silent` flag `n` times, keeping only the
post-states: used to state that `N` closes equal one close. -/
def Future.closeIter (silent : Bool) : Nat → Future V E → Future V E
  | 0, f => f
  | n + 1, f => Future.closeIter silent n (f.close silent).post

/-- Handler/state invariant maintained by every reachable future: a live
callback or errorback exists only while `BOUND`, and a `BOUND` future always
has an errorback (defaulted on line 40 when `bind` got none). -/
def FutureInv (f : Future V E) : Prop :=
  (f.callback ≠ none → f.state = FState.bound) ∧
  (f.errorback ≠ none → f.state = FState.bound) ∧
  (f.state = FState.bound → f.errorback ≠ none)

/-- Concrete `BOUND` future used by witnesses: live callback `5`, live
errorback `user 6`, empty buffers. -/
def sampleBound : Future Nat Nat :=
  ⟨some 5, [], some (Handler.user 6), [], FState.bound⟩

/-- Concrete `CLOSED` future used by witnesses: no handlers, two buffered
chunks and one buffered error. -/
def sampleClosed : Future Nat Nat :=
  ⟨none, [1, 2], none, [FErr.custom 7], FState.closed⟩

/-- Concrete `UNITIALIZED` future used by witnesses: no handlers, one buffered
chunk and one buffered error. -/
def sampleUnbound : Future Nat Nat :=
  ⟨none, [3], none, [FErr.custom 4], FState.unitialized⟩

/-! Dispatch lemmas: how each operation reduces once the state (and, where
relevant, the presence of a handler) is known. -/

theorem Future.bind_of_bound (f : Future V E) (cb eb : Option Nat)
    (h : f.state = FState.bound) :
    f.bind cb eb = ⟨some Failure.invalidState, f, []⟩ := by
  unfold Future.bind
  rw [h]

theorem Future.bind_of_unit (f : Future V E) (cb eb : Option Nat)
    (h : f.state = FState.unitialized) :
    f.bind cb eb = f.bindOpen cb eb true := by
  unfold Future.bind
  rw [h]

theorem Future.bind_of_closed (f : Future V E) (cb eb : Option Nat)
    (h : f.state = FState.closed) :
    f.bind cb eb = f.bindOpen cb eb false := by
  unfold Future.bind
  rw [h]

theorem Future.trigger_of_closed (f : Future V E) (v : V)
    (h : f.state = FState.closed) :
    f.trigger v = ⟨some Failure.invalidState, f, []⟩ := by
  unfold Future.trigger
  rw [h]

theorem Future.trigger_live (f : Future V E) (v : V) (cbh : Nat)
    (h : f.state ≠ FState.closed) (hcb : f.callback = some cbh) :
    f.trigger v = ⟨none, f, [Call.onValue cbh v]⟩ := by
  cases hs : f.state with
  | closed => exact absurd hs h
  | unitialized =>
      unfold Future.trigger
      rw [hs, hcb]
  | bound =>
      unfold Future.trigger
      rw [hs, hcb]

theorem Future.trigger_buffer (f : Future V E) (v : V)
    (h : f.state ≠ FState.closed) (hcb : f.callback = none) :
    f.trigger v = ⟨none, { f with chunks := f.chunks ++ [v] }, []⟩ := by
  cases hs : f.state with
  | closed => exact absurd hs h
  | unitialized =>
      unfold Future.trigger
      rw [hs, hcb]
  | bound =>
      unfold Future.trigger
      rw [hs, hcb]

theorem Future.error_of_closed (f : Future V E) (e : FErr E)
    (h : f.state = FState.closed) :
    f.error e = ⟨some Failure.invalidState, f, []⟩ := by
  unfold Future.error
  rw [h]

theorem Future.error_live (f : Future V E) (e : FErr E) (ebh : Handler)
    (h : f.state ≠ FState.closed) (heb : f.errorback = some ebh) :
    f.error e = ⟨none, f, [Call.onError ebh e]⟩ := by
  cases hs : f.state with
  | closed => exact absurd hs h
  | unitialized =>
      unfold Future.error
      rw [hs, heb]
  | bound =>
      unfold Future.error
      rw [hs, heb]

theorem Future.error_buffer (f : Future V E) (e : FErr E)
    (h : f.state ≠ FState.closed) (heb : f.errorback = none) :
    f.error e = ⟨none, { f with errors := f.errors ++ [e] }, []⟩ := by
  cases hs : f.state with
  | closed => exact absurd hs h
  | unitialized =>
      unfold Future.error
      rw [hs, heb]
  | bound =>
      unfold Future.error
      rw [hs, heb]

theorem Future.bindOpen_ok_empties (f : Future V E) (cb eb : Option Nat)
    (r : Bool) (h : (f.bindOpen cb eb r).err = none) :
    (f.bindOpen cb eb r).post.chunks = [] ∧ (f.bindOpen cb eb r).post.errors = [] := by
  cases cb with
  | some c =>
      cases r with
      | true => exact ⟨rfl, rfl⟩
      | false => exact ⟨rfl, rfl⟩
  | none =>
      cases hch : f.chunks with
      | nil =>
          cases r with
          | true => simp [Future.bindOpen, hch]
          | false => simp [Future.bindOpen, hch]
      | cons a rest =>
          unfold Future.bindOpen at h
          rw [hch] at h
          simp at h

theorem Future.bindOpen_some_true (f : Future V E) (cb : Nat) (eb : Option Nat) :
    f.bindOpen (some cb) eb true
      = ⟨none,
          { f with chunks := [], errors := [], callback := some cb,
                   errorback := some (ebOf eb), state := FState.bound },
          f.chunks.map (Call.onValue cb)
            ++ f.errors.map (Call.onError (ebOf eb))⟩ := rfl

theorem Future.bindOpen_some_false (f : Future V E) (cb : Nat) (eb : Option Nat) :
    f.bindOpen (some cb) eb false
      = ⟨none, { f with chunks := [], errors := [] },
          f.chunks.map (Call.onValue cb)
            ++ f.errors.map (Call.onError (ebOf eb))⟩ := rfl

theorem Future.bindOpen_none_nil_true (f : Future V E) (eb : Option Nat)
    (hch : f.chunks = []) :
    f.bindOpen none eb true
      = ⟨none,
          { f with errors := [], callback := none,
                   errorback := some (ebOf eb), state := FState.bound },
          f.errors.map (Call.onError (ebOf eb))⟩ := by
  unfold Future.bindOpen
  rw [hch]

theorem Future.bindOpen_none_nil_false (f : Future V E) (eb : Option Nat)
    (hch : f.chunks = []) :
    f.bindOpen none eb false
      = ⟨none, { f with errors := [] },
          f.errors.map (Call.onError (ebOf eb))⟩ := by
  unfold Future.bindOpen
  rw [hch]

theorem Future.bindOpen_none_cons (f : Future V E) (eb : Option Nat) (r : Bool)
    (a : V) (rest : List V) (hch : f.chunks = a :: rest) :
    f.bindOpen none eb r
      = ⟨some Failure.typeError, { f with chunks := rest }, []⟩ := by
  unfold Future.bindOpen
  rw [hch]

theorem Future.close_of_closed (f : Future V E) (s : Bool)
    (h : f.state = FState.closed) :
    f.close s = ⟨none, f, []⟩ := by
  unfold Future.close
  rw [h]

theorem Future.close_silent (f : Future V E) (h : f.state ≠ FState.closed) :
    f.close true
      = ⟨none, { f with callback := none, errorback := none,
                        state := FState.closed }, []⟩ := by
  cases hs : f.state with
  | closed => exact absurd hs h
  | unitialized =>
      unfold Future.close
      rw [hs]
  | bound =>
      unfold Future.close
      rw [hs]

theorem Future.close_noisy_buffer (f : Future V E) (h : f.state ≠ FState.closed)
    (heb : f.errorback = none) :
    f.close false
      = ⟨none, { f with errors := f.errors ++ [FErr.chokeEvent],
                        callback := none, errorback := none,
                        state := FState.closed }, []⟩ := by
  cases hs : f.state with
  | closed => exact absurd hs h
  | unitialized =>
      unfold Future.close
      rw [hs, heb]
  | bound =>
      unfold Future.close
      rw [hs, heb]

theorem Future.close_noisy_live (f : Future V E) (ebh : Handler)
    (h : f.state ≠ FState.closed) (heb : f.errorback = some ebh) :
    f.close false
      = ⟨none, { f with callback := none, errorback := none,
                        state := FState.closed },
          [Call.onError ebh FErr.chokeEvent]⟩ := by
  cases hs : f.state with
  | closed => exact absurd hs h
  | unitialized =>
      unfold Future.close
      rw [hs, heb]
  | bound =>
      unfold Future.close
      rw [hs, heb]

theorem Future.close_post_state (f : Future V E) (s : Bool) :
    (f.close s).post.state = FState.closed := by
  cases hs : f.state with
  | closed =>
      rw [Future.close_of_closed f s hs]
      exact hs
  | unitialized =>
      have h : f.state ≠ FState.closed := by
        rw [hs]
        exact fun hc => FState.noConfusion hc
      cases s with
      | true => rw [Future.close_silent f h]
      | false =>
          cases heb : f.errorback with
          | none => rw [Future.close_noisy_buffer f h heb]
          | some ebh => rw [Future.close_noisy_live f ebh h heb]
  | bound =>
      have h : f.state ≠ FState.closed := by
        rw [hs]
        exact fun hc => FState.noConfusion hc
      cases s with
      | true => rw [Future.close_silent f h]
      | false =>
          cases heb : f.errorback with
          | none => rw [Future.close_noisy_buffer f h heb]
          | some ebh => rw [Future.close_noisy_live f ebh h heb]

theorem Future.closeIter_of_closed (t : Bool) (n : Nat) (g : Future V E)
    (hg : g.state = FState.closed) :
    Future.closeIter t n g = g := by
  induction n with
  | zero => rfl
  | succ n ih =>
      unfold Future.closeIter
      rw [Future.close_of_closed g t hg]
      exact ih

/-! Claim theorems. -/

/-- C5: for every cell in `BOUND` state, calling `bind` again always fails with
`InvalidStateError` (the assert on source line 38), and the failure leaves the
stored live callback and errorback and the pending queues unchanged (the whole
post-state equals the pre-state) and invokes no handler. -/
theorem C5_double_bind_fails (f : Future V E) (cb eb : Option Nat)
    (h : f.state = FState.bound) :
    (f.bind cb eb).err = some Failure.invalidState ∧
    (f.bind cb eb).post = f ∧
    (f.bind cb eb).calls = [] := by
  rw [Future.bind_of_bound f cb eb h]
  exact ⟨rfl, rfl, rfl⟩

/-- Witness for C5 at the concrete bound cell `sampleBound`. -/
theorem C5_double_bind_fails_witness :
    (sampleBound.bind (some 1) none).err = some Failure.invalidState ∧
    (sampleBound.bind (some 1) none).post = sampleBound ∧
    (sampleBound.bind (some 1) none).calls = [] :=
  C5_double_bind_fails sampleBound (some 1) none (by decide)

/-- C6: `trigger` and `error` fail with `InvalidStateError` exactly when the
cell is `CLOSED` (asserts on source lines 87 and 100), and both return normally
whenever the state is `UNITIALIZED` or `BOUND`. -/
theorem C6_trigger_error_closed_guard (f : Future V E) (v : V) (e : FErr E) :
    (f.state = FState.closed →
      (f.trigger v).err = some Failure.invalidState ∧
      (f.error e).err = some Failure.invalidState) ∧
    (f.state ≠ FState.closed →
      (f.trigger v).err = none ∧ (f.error e).err = none) := by
  constructor
  · intro h
    rw [Future.trigger_of_closed f v h, Future.error_of_closed f e h]
    exact ⟨rfl, rfl⟩
  · intro h
    constructor
    · cases hcb : f.callback with
      | none => rw [Future.trigger_buffer f v h hcb]
      | some cbh => rw [Future.trigger_live f v cbh h hcb]
    · cases heb : f.errorback with
      | none => rw [Future.error_buffer f e h heb]
      | some ebh => rw [Future.error_live f e ebh h heb]

/-- Witness for C6: the closed branch at `sampleClosed`, the open branch at
`sampleUnbound`. -/
theorem C6_trigger_error_closed_guard_witness :
    ((sampleClosed.trigger 9).err = some Failure.invalidState ∧
      (sampleClosed.error (FErr.custom 3)).err = some Failure.invalidState) ∧
    ((sampleUnbound.trigger 9).err = none ∧
      (sampleUnbound.error (FErr.custom 3)).err = none) :=
  ⟨(C6_trigger_error_closed_guard sampleClosed 9 (FErr.custom 3)).1 (by decide),
   (C6_trigger_error_closed_guard sampleUnbound 9 (FErr.custom 3)).2 (by decide)⟩

/-- C8: on a cell that is not `CLOSED`, `trigger` invokes the live callback
immediately and synchronously with the value, leaving `_chunks` (and the whole
state) unchanged, whenever a live callback is bound, and otherwise appends the
value to `_chunks`; `error` behaves symmetrically with the errorback and
`_errors` (source lines 88-91 and 101-104). -/
theorem C8_trigger_live_or_buffer (f : Future V E) (v : V) (e : FErr E)
    (cbh : Nat) (ebh : Handler) (h : f.state ≠ FState.closed) :
    (f.callback = some cbh → f.trigger v = ⟨none, f, [Call.onValue cbh v]⟩) ∧
    (f.callback = none →
      f.trigger v = ⟨none, { f with chunks := f.chunks ++ [v] }, []⟩) ∧
    (f.errorback = some ebh → f.error e = ⟨none, f, [Call.onError ebh e]⟩) ∧
    (f.errorback = none →
      f.error e = ⟨none, { f with errors := f.errors ++ [e] }, []⟩) :=
  ⟨fun hcb => Future.trigger_live f v cbh h hcb,
   fun hcb => Future.trigger_buffer f v h hcb,
   fun heb => Future.error_live f e ebh h heb,
   fun heb => Future.error_buffer f e h heb⟩

/-- Witness for C8: live delivery at `sampleBound`, buffering at
`sampleUnbound`. -/
theorem C8_trigger_live_or_buffer_witness :
    sampleBound.trigger 9 = ⟨none, sampleBound, [Call.onValue 5 9]⟩ ∧
    sampleBound.error (FErr.custom 3)
        = ⟨none, sampleBound, [Call.onError (Handler.user 6) (FErr.custom 3)]⟩ ∧
    sampleUnbound.trigger 9
        = ⟨none, { sampleUnbound with chunks := sampleUnbound.chunks ++ [9] }, []⟩ ∧
    sampleUnbound.error (FErr.custom 3)
        = ⟨none, { sampleUnbound with
                    errors := sampleUnbound.errors ++ [FErr.custom 3] }, []⟩ :=
  ⟨(C8_trigger_live_or_buffer sampleBound 9 (FErr.custom 3) 5 (Handler.user 6)
      (by decide)).1 rfl,
   (C8_trigger_live_or_buffer sampleBound 9 (FErr.custom 3) 5 (Handler.user 6)
      (by decide)).2.2.1 rfl,
   (C8_trigger_live_or_buffer sampleUnbound 9 (FErr.custom 3) 0 Handler.defaultEB
      (by decide)).2.1 rfl,
   (C8_trigger_live_or_buffer sampleUnbound 9 (FErr.custom 3) 0 Handler.defaultEB
      (by decide)).2.2.2 rfl⟩

/-- C10: whenever `bind` returns normally (no assert failure, no mid-drain
`TypeError`), both pending queues of the post-state are empty: the drain loops
on source lines 42-45 pop every buffered chunk and error. -/
theorem C10_bind_drains_completely (f : Future V E) (cb eb : Option Nat)
    (h : (f.bind cb eb).err = none) :
    (f.bind cb eb).post.chunks = [] ∧ (f.bind cb eb).post.errors = [] := by
  cases hs : f.state with
  | bound =>
      rw [Future.bind_of_bound f cb eb hs] at h
      simp at h
  | unitialized =>
      rw [Future.bind_of_unit f cb eb hs] at h ⊢
      exact Future.bindOpen_ok_empties f cb eb true h
  | closed =>
      rw [Future.bind_of_closed f cb eb hs] at h ⊢
      exact Future.bindOpen_ok_empties f cb eb false h

/-- Witness for C10 at the concrete closed cell `sampleClosed` with a real
callback, whose backlog of two chunks and one error is fully drained. -/
theorem C10_bind_drains_completely_witness :
    (sampleClosed.bind (some 1) (some 2)).post.chunks = [] ∧
    (sampleClosed.bind (some 1) (some 2)).post.errors = [] :=
  C10_bind_drains_completely sampleClosed (some 1) (some 2) (by decide)

/-- C2: binding a `CLOSED` cell returns normally and drains the buffered
values and errors into the supplied handlers, but does not store the handlers
and leaves the state `CLOSED` (the whole post-state is the pre-state with both
buffers emptied), so a subsequent `trigger` still fails with
`InvalidStateError`; only from `UNITIALIZED` does `bind` store the handlers
and move to `BOUND` (source lines 47-50). -/
theorem C2_bind_closed_drains_only (f : Future V E) (cb eb : Nat) (v : V) :
    (f.state = FState.closed →
      (f.bind (some cb) (some eb)).err = none ∧
      (f.bind (some cb) (some eb)).post = { f with chunks := [], errors := [] } ∧
      (f.bind (some cb) (some eb)).calls
          = f.chunks.map (Call.onValue cb)
              ++ f.errors.map (Call.onError (Handler.user eb)) ∧
      ((f.bind (some cb) (some eb)).post.trigger v).err
          = some Failure.invalidState) ∧
    (f.state = FState.unitialized →
      (f.bind (some cb) (some eb)).post.state = FState.bound ∧
      (f.bind (some cb) (some eb)).post.callback = some cb ∧
      (f.bind (some cb) (some eb)).post.errorback = some (Handler.user eb)) := by
  constructor
  · intro h
    rw [Future.bind_of_closed f (some cb) (some eb) h, Future.bindOpen_some_false]
    refine ⟨rfl, rfl, rfl, ?_⟩
    show ((({ f with chunks := [], errors := [] }) : Future V E).trigger v).err
        = some Failure.invalidState
    rw [Future.trigger_of_closed ({ f with chunks := [], errors := [] }) v h]
  · intro h
    rw [Future.bind_of_unit f (some cb) (some eb) h, Future.bindOpen_some_true]
    exact ⟨rfl, rfl, rfl⟩

/-- Witness for C2: the closed branch at `sampleClosed` (backlog `[1, 2]` and
`[custom 7]`), the unbound branch at `sampleUnbound`. -/
theorem C2_bind_closed_drains_only_witness :
    ((sampleClosed.bind (some 1) (some 2)).err = none ∧
      (sampleClosed.bind (some 1) (some 2)).post
          = { sampleClosed with chunks := [], errors := [] } ∧
      (sampleClosed.bind (some 1) (some 2)).calls
          = sampleClosed.chunks.map (Call.onValue 1)
              ++ sampleClosed.errors.map (Call.onError (Handler.user 2)) ∧
      ((sampleClosed.bind (some 1) (some 2)).post.trigger 9).err
          = some Failure.invalidState) ∧
    ((sampleUnbound.bind (some 1) (some 2)).post.state = FState.bound ∧
      (sampleUnbound.bind (some 1) (some 2)).post.callback = some 1 ∧
      (sampleUnbound.bind (some 1) (some 2)).post.errorback
          = some (Handler.user 2)) :=
  ⟨(C2_bind_closed_drains_only sampleClosed 1 2 9).1 (by decide),
   (C2_bind_closed_drains_only sampleUnbound 1 2 9).2 (by decide)⟩

/-- C3: on a cell that is not `CLOSED`, `close(silent=false)` delivers exactly
one `ChokeEvent`: to the live errorback when one is present, otherwise by
appending it to `_errors`; `close(silent=true)` invokes no handler and appends
nothing; in both cases `close` clears both live handlers and sets the state to
`CLOSED` (source lines 71-78). -/
theorem C3_close_choke_once (f : Future V E) (ebh : Handler)
    (h : f.state ≠ FState.closed) :
    (f.errorback = none →
      (f.close false).calls = [] ∧
      (f.close false).post.errors = f.errors ++ [FErr.chokeEvent]) ∧
    (f.errorback = some ebh →
      (f.close false).calls = [Call.onError ebh FErr.chokeEvent] ∧
      (f.close false).post.errors = f.errors) ∧
    ((f.close true).calls = [] ∧ (f.close true).post.errors = f.errors) ∧
    ((f.close false).post.callback = none ∧
      (f.close false).post.errorback = none ∧
      (f.close false).post.state = FState.closed) ∧
    ((f.close true).post.callback = none ∧
      (f.close true).post.errorback = none ∧
      (f.close true).post.state = FState.closed) := by
  refine ⟨?_, ?_, ?_, ?_, ?_⟩
  · intro heb
    rw [Future.close_noisy_buffer f h heb]
    exact ⟨rfl, rfl⟩
  · intro heb
    rw [Future.close_noisy_live f ebh h heb]
    exact ⟨rfl, rfl⟩
  · rw [Future.close_silent f h]
    exact ⟨rfl, rfl⟩
  · cases heb : f.errorback with
    | none =>
        rw [Future.close_noisy_buffer f h heb]
        exact ⟨rfl, rfl, rfl⟩
    | some x =>
        rw [Future.close_noisy_live f x h heb]
        exact ⟨rfl, rfl, rfl⟩
  · rw [Future.close_silent f h]
    exact ⟨rfl, rfl, rfl⟩

/-- Witness for C3: the buffering branch at `sampleUnbound` (no errorback),
the live branch and the silent branch at `sampleBound`. -/
theorem C3_close_choke_once_witness :
    ((sampleUnbound.close false).calls = [] ∧
      (sampleUnbound.close false).post.errors
          = sampleUnbound.errors ++ [FErr.chokeEvent]) ∧
    ((sampleBound.close false).calls
          = [Call.onError (Handler.user 6) FErr.chokeEvent] ∧
      (sampleBound.close false).post.errors = sampleBound.errors) ∧
    ((sampleBound.close true).calls = [] ∧
      (sampleBound.close true).post.errors = sampleBound.errors) ∧
    ((sampleBound.close false).post.callback = none ∧
      (sampleBound.close false).post.errorback = none ∧
      (sampleBound.close false).post.state = FState.closed) :=
  ⟨(C3_close_choke_once sampleUnbound Handler.defaultEB (by decide)).1 rfl,
   (C3_close_choke_once sampleBound (Handler.user 6) (by decide)).2.1 rfl,
   (C3_close_choke_once sampleBound (Handler.user 6) (by decide)).2.2.1,
   (C3_close_choke_once sampleBound (Handler.user 6) (by decide)).2.2.2.1⟩

/-- C7: `close` is idempotent.  After one `close`, any number of further
closes (with any silent flags) leave the state identical, invoke no handler
and append nothing; and a `close` issued while already `CLOSED` returns
immediately, changing nothing and invoking no handler (source lines 68-69). -/
theorem C7_close_idempotent (f : Future V E) (s t : Bool) (n : Nat) :
    Future.closeIter t n (f.close s).post = (f.close s).post ∧
    ((f.close s).post.close t).calls = [] ∧
    ((f.close s).post.close t).err = none ∧
    ((f.close s).post.close t).post = (f.close s).post ∧
    (f.state = FState.closed → f.close s = ⟨none, f, []⟩) := by
  have hc := Future.close_post_state f s
  have hstep := Future.close_of_closed ((f.close s).post) t hc
  refine ⟨Future.closeIter_of_closed t n _ hc, ?_, ?_, ?_,
    fun h => Future.close_of_closed f s h⟩
  · rw [hstep]
  · rw [hstep]
  · rw [hstep]

/-- Witness for C7: three extra closes after closing `sampleUnbound`, and the
no-op close of the already-closed `sampleClosed`. -/
theorem C7_close_idempotent_witness :
    Future.closeIter true 3 (sampleUnbound.close false).post
        = (sampleUnbound.close false).post ∧
    ((sampleUnbound.close false).post.close true).calls = [] ∧
    ((sampleUnbound.close false).post.close true).err = none ∧
    sampleClosed.close false = ⟨none, sampleClosed, []⟩ :=
  ⟨(C7_close_idempotent sampleUnbound false true 3).1,
   (C7_close_idempotent sampleUnbound false true 3).2.1,
   (C7_close_idempotent sampleUnbound false true 3).2.2.1,
   (C7_close_idempotent sampleClosed false true 3).2.2.2.2 (by decide)⟩

/-- C9: `unbind` succeeds from every state, clears both stored handlers, sets
the state to `UNITIALIZED` and leaves both pending queues untouched (source
lines 58-60); afterwards `trigger` and `error` are accepted again and `bind`
rebinds for live delivery. -/
theorem C9_unbind_resets (f : Future V E) (v : V) (e : FErr E) (cb eb : Nat) :
    f.unbind.chunks = f.chunks ∧
    f.unbind.errors = f.errors ∧
    f.unbind.callback = none ∧
    f.unbind.errorback = none ∧
    f.unbind.state = FState.unitialized ∧
    (f.unbind.trigger v).err = none ∧
    (f.unbind.error e).err = none ∧
    (f.unbind.bind (some cb) (some eb)).err = none ∧
    (f.unbind.bind (some cb) (some eb)).post.state = FState.bound ∧
    (f.unbind.bind (some cb) (some eb)).post.callback = some cb ∧
    (f.unbind.bind (some cb) (some eb)).post.errorback
        = some (Handler.user eb) := by
  have hne : f.unbind.state ≠ FState.closed := fun hcl => FState.noConfusion hcl
  refine ⟨rfl, rfl, rfl, rfl, rfl, ?_, ?_, ?_⟩
  · rw [Future.trigger_buffer f.unbind v hne rfl]
  · rw [Future.error_buffer f.unbind e hne rfl]
  · rw [Future.bind_of_unit f.unbind (some cb) (some eb) rfl,
      Future.bindOpen_some_true]
    exact ⟨rfl, rfl, rfl, rfl⟩

theorem Future.run_produce (ops : List (Op V E)) (f : Future V E)
    (hprod : ∀ op ∈ ops, op.isProduce = true)
    (hs : f.state = FState.unitialized) (hcb : f.callback = none)
    (heb : f.errorback = none) :
    f.run ops = { f with chunks := f.chunks ++ opValues ops,
                         errors := f.errors ++ opErrors ops } := by
  induction ops generalizing f with
  | nil => simp [Future.run, opValues, opErrors]
  | cons op ops ih =>
      have hop : op.isProduce = true := hprod op (List.mem_cons_self op ops)
      have hrest : ∀ o ∈ ops, o.isProduce = true :=
        fun o ho => hprod o (List.mem_cons_of_mem op ho)
      have hne : f.state ≠ FState.closed := by
        rw [hs]
        exact fun hc => FState.noConfusion hc
      cases op with
      | bind cb eb => simp [Op.isProduce] at hop
      | unbind => simp [Op.isProduce] at hop
      | close s => simp [Op.isProduce] at hop
      | trigger v =>
          show (Future.step f (Op.trigger v)).run ops = _
          rw [Future.step, Future.trigger_buffer f v hne hcb]
          rw [ih { f with chunks := f.chunks ++ [v] } hrest hs hcb heb]
          simp [opValues, opErrors]
      | error e =>
          show (Future.step f (Op.error e)).run ops = _
          rw [Future.step, Future.error_buffer f e hne heb]
          rw [ih { f with errors := f.errors ++ [e] } hrest hs hcb heb]
          simp [opValues, opErrors]

/-- C1: from a fresh cell, after any producer-only call sequence (`trigger`s
and `error`s in any interleaving) made while no callback is attached, `bind`
returns normally and invokes the callback on the triggered values in exactly
their production order, and only after all of them the errorback on the
produced errors in their production order; a value triggered after the bind
reaches the callback only in the later call (source lines 42-45). -/
theorem C1_bind_fifo_drain (ops : List (Op V E)) (cb eb : Nat) (v : V)
    (hprod : ∀ op ∈ ops, op.isProduce = true) :
    (((Future.new : Future V E).run ops).bind (some cb) (some eb)).err = none ∧
    (((Future.new : Future V E).run ops).bind (some cb) (some eb)).calls
        = (opValues ops).map (Call.onValue cb)
            ++ (opErrors ops).map (Call.onError (Handler.user eb)) ∧
    ((((Future.new : Future V E).run ops).bind (some cb) (some eb)).post.trigger
        v).calls = [Call.onValue cb v] ∧
    ((((Future.new : Future V E).run ops).bind (some cb) (some eb)).post.trigger
        v).err = none := by
  rw [Future.run_produce ops (Future.new : Future V E) hprod rfl rfl rfl]
  rw [Future.bind_of_unit _ (some cb) (some eb) rfl, Future.bindOpen_some_true]
  refine ⟨rfl, ?_, ?_, ?_⟩
  · show ((Future.new : Future V E).chunks ++ opValues ops).map (Call.onValue cb)
          ++ ((Future.new : Future V E).errors ++ opErrors ops).map
              (Call.onError (ebOf (some eb)))
        = (opValues ops).map (Call.onValue cb)
            ++ (opErrors ops).map (Call.onError (Handler.user eb))
    simp [Future.new, ebOf]
  · rw [Future.trigger_live _ v cb (fun hc => FState.noConfusion hc) rfl]
  · rw [Future.trigger_live _ v cb (fun hc => FState.noConfusion hc) rfl]

/-- Witness for C1 on the concrete sequence
`trigger 1; error (custom 2); trigger 3` with callback `0` and errorback
`user 4`: values `1, 3` are delivered first in order, then the error. -/
theorem C1_bind_fifo_drain_witness :
    (((Future.new : Future Nat Nat).run
        [Op.trigger 1, Op.error (FErr.custom 2), Op.trigger 3]).bind
          (some 0) (some 4)).err = none ∧
    (((Future.new : Future Nat Nat).run
        [Op.trigger 1, Op.error (FErr.custom 2), Op.trigger 3]).bind
          (some 0) (some 4)).calls
        = (opValues [Op.trigger 1, Op.error (FErr.custom 2),
              Op.trigger 3]).map (Call.onValue 0)
            ++ (opErrors [Op.trigger 1, Op.error (FErr.custom 2),
                  Op.trigger 3]).map (Call.onError (Handler.user 4)) ∧
    ((((Future.new : Future Nat Nat).run
        [Op.trigger 1, Op.error (FErr.custom 2), Op.trigger 3]).bind
          (some 0) (some 4)).post.trigger 9).calls = [Call.onValue 0 9] ∧
    ((((Future.new : Future Nat Nat).run
        [Op.trigger 1, Op.error (FErr.custom 2), Op.trigger 3]).bind
          (some 0) (some 4)).post.trigger 9).err = none :=
  C1_bind_fifo_drain [Op.trigger 1, Op.error (FErr.custom 2), Op.trigger 3]
    0 4 9 (by decide)

theorem Future.inv_step (f : Future V E) (hf : FutureInv f) (op : Op V E) :
    FutureInv (f.step op) := by
  obtain ⟨h1, h2, h3⟩ := hf
  cases op with
  | unbind =>
      exact ⟨fun hc => absurd rfl hc, fun hc => absurd rfl hc,
        fun hb => FState.noConfusion hb⟩
  | close s =>
      show FutureInv (f.close s).post
      cases hs : f.state with
      | closed =>
          rw [Future.close_of_closed f s hs]
          exact ⟨h1, h2, h3⟩
      | unitialized =>
          have hne : f.state ≠ FState.closed := by
            rw [hs]
            exact fun hc => FState.noConfusion hc
          cases s with
          | true =>
              rw [Future.close_silent f hne]
              exact ⟨fun hc => absurd rfl hc, fun hc => absurd rfl hc,
                fun hb => FState.noConfusion hb⟩
          | false =>
              cases heb : f.errorback with
              | none =>
                  rw [Future.close_noisy_buffer f hne heb]
                  exact ⟨fun hc => absurd rfl hc, fun hc => absurd rfl hc,
                    fun hb => FState.noConfusion hb⟩
              | some x =>
                  rw [Future.close_noisy_live f x hne heb]
                  exact ⟨fun hc => absurd rfl hc, fun hc => absurd rfl hc,
                    fun hb => FState.noConfusion hb⟩
      | bound =>
          have hne : f.state ≠ FState.closed := by
            rw [hs]
            exact fun hc => FState.noConfusion hc
          cases s with
          | true =>
              rw [Future.close_silent f hne]
              exact ⟨fun hc => absurd rfl hc, fun hc => absurd rfl hc,
                fun hb => FState.noConfusion hb⟩
          | false =>
              cases heb : f.errorback with
              | none =>
                  rw [Future.close_noisy_buffer f hne heb]
                  exact ⟨fun hc => absurd rfl hc, fun hc => absurd rfl hc,
                    fun hb => FState.noConfusion hb⟩
              | some x =>
                  rw [Future.close_noisy_live f x hne heb]
                  exact ⟨fun hc => absurd rfl hc, fun hc => absurd rfl hc,
                    fun hb => FState.noConfusion hb⟩
  | trigger v =>
      show FutureInv (f.trigger v).post
      cases hs : f.state with
      | closed =>
          rw [Future.trigger_of_closed f v hs]
          exact ⟨h1, h2, h3⟩
      | unitialized =>
          have hne : f.state ≠ FState.closed := by
            rw [hs]
            exact fun hc => FState.noConfusion hc
          cases hcb : f.callback with
          | none =>
              rw [Future.trigger_buffer f v hne hcb]
              exact ⟨h1, h2, h3⟩
          | some cbh =>
              rw [Future.trigger_live f v cbh hne hcb]
              exact ⟨h1, h2, h3⟩
      | bound =>
          have hne : f.state ≠ FState.closed := by
            rw [hs]
            exact fun hc => FState.noConfusion hc
          cases hcb : f.callback with
          | none =>
              rw [Future.trigger_buffer f v hne hcb]
              exact ⟨h1, h2, h3⟩
          | some cbh =>
              rw [Future.trigger_live f v cbh hne hcb]
              exact ⟨h1, h2, h3⟩
  | error e =>
      show FutureInv (f.error e).post
      cases hs : f.state with
      | closed =>
          rw [Future.error_of_closed f e hs]
          exact ⟨h1, h2, h3⟩
      | unitialized =>
          have hne : f.state ≠ FState.closed := by
            rw [hs]
            exact fun hc => FState.noConfusion hc
          cases heb : f.errorback with
          | none =>
              rw [Future.error_buffer f e hne heb]
              exact ⟨h1, h2, h3⟩
          | some ebh =>
              rw [Future.error_live f e ebh hne heb]
              exact ⟨h1, h2, h3⟩
      | bound =>
          have hne : f.state ≠ FState.closed := by
            rw [hs]
            exact fun hc => FState.noConfusion hc
          cases heb : f.errorback with
          | none =>
              rw [Future.error_buffer f e hne heb]
              exact ⟨h1, h2, h3⟩
          | some ebh =>
              rw [Future.error_live f e ebh hne heb]
              exact ⟨h1, h2, h3⟩
  | bind cb eb =>
      show FutureInv (f.bind cb eb).post
      cases hs : f.state with
      | bound =>
          rw [Future.bind_of_bound f cb eb hs]
          exact ⟨h1, h2, h3⟩
      | unitialized =>
          rw [Future.bind_of_unit f cb eb hs]
          cases cb with
          | some c =>
              rw [Future.bindOpen_some_true]
              exact ⟨fun _ => rfl, fun _ => rfl,
                fun _ hc => Option.noConfusion hc⟩
          | none =>
              cases hch : f.chunks with
              | nil =>
                  rw [Future.bindOpen_none_nil_true f eb hch]
                  exact ⟨fun hc => absurd rfl hc, fun _ => rfl,
                    fun _ hc => Option.noConfusion hc⟩
              | cons a rest =>
                  rw [Future.bindOpen_none_cons f eb true a rest hch]
                  exact ⟨h1, h2, h3⟩
      | closed =>
          rw [Future.bind_of_closed f cb eb hs]
          cases cb with
          | some c =>
              rw [Future.bindOpen_some_false]
              exact ⟨h1, h2, h3⟩
          | none =>
              cases hch : f.chunks with
              | nil =>
                  rw [Future.bindOpen_none_nil_false f eb hch]
                  exact ⟨h1, h2, h3⟩
              | cons a rest =>
                  rw [Future.bindOpen_none_cons f eb false a rest hch]
                  exact ⟨h1, h2, h3⟩

theorem Future.run_inv (g : Future V E) (hg : FutureInv g)
    (ops : List (Op V E)) : FutureInv (g.run ops) := by
  induction ops generalizing g with
  | nil => exact hg
  | cons op ops ih => exact ih (g.step op) (Future.inv_step g hg op)

/-- Counterexample to C4 as stated: the scenario from the spec,
`new(); error(custom 5); bind(None, eb)` is accepted by the code (line 38
admits it, line 48 stores `_callback = None`, line 50 sets `BOUND`), reaching
a state that is `BOUND` with no callback present, so `BOUND ⟺ callback
present` fails left to right. -/
theorem C4_counterexample_bind_none_callback :
    ((Future.new : Future Nat Nat).run
        [Op.error (FErr.custom 5), Op.bind none (some 7)]).state
      = FState.bound ∧
    ((Future.new : Future Nat Nat).run
        [Op.error (FErr.custom 5), Op.bind none (some 7)]).callback = none ∧
    ¬ (((Future.new : Future Nat Nat).run
          [Op.error (FErr.custom 5), Op.bind none (some 7)]).state
            = FState.bound
        ↔ ((Future.new : Future Nat Nat).run
            [Op.error (FErr.custom 5), Op.bind none (some 7)]).callback
              ≠ none) := by
  decide

/-- C4 amended: in every state reachable by any sequence of
`new`/`bind`/`unbind`/`close`/`trigger`/`error` operations, a live callback is
present only while the state is `BOUND`, and whenever the state is `BOUND` an
errorback is present (defaulted when none was supplied to `bind`).  The
converse `BOUND → callback present` of the original claim fails, because
`bind` may be given no callback (`bind(None, eb)`) and still reach `BOUND`. -/
theorem C4_handler_state_invariant (ops : List (Op V E)) :
    (((Future.new : Future V E).run ops).callback ≠ none →
        ((Future.new : Future V E).run ops).state = FState.bound) ∧
    (((Future.new : Future V E).run ops).state = FState.bound →
        ((Future.new : Future V E).run ops).errorback ≠ none) := by
  have h := Future.run_inv (Future.new : Future V E)
    ⟨fun hc => absurd rfl hc, fun hc => absurd rfl hc,
      fun hb => FState.noConfusion hb⟩ ops
  exact ⟨h.1, h.2.2⟩

/-- Witness for C4 amended at the concrete run `bind(callback 3, no
errorback)`: the callback is present, hence the theorem yields `BOUND`, and
`BOUND` in turn yields a present (defaulted) errorback. -/
theorem C4_handler_state_invariant_witness :
    ((Future.new : Future Nat Nat).run [Op.bind (some 3) none]).state
        = FState.bound ∧
    ((Future.new : Future Nat Nat).run [Op.bind (some 3) none]).errorback
        ≠ none :=
  ⟨(C4_handler_state_invariant [Op.bind (some 3) none]).1 (by decide),
   (C4_handler_state_invariant [Op.bind (some 3) none]).2
     ((C4_handler_state_invariant [Op.bind (some 3) none]).1 (by decide))⟩

end CocaineFutures
